import Mathlib

/-!
Shallow embedding of the request-orchestration layer of the RAG web backend
(`app_fastapi/backend/routes.py` and `app_fastapi/backend/app.py`):
error classification at the request boundary, the `/ask` and `/chat`
endpoints, the NDJSON streaming serializers, and the per-request OpenAI
bearer-token refresh middleware.

Python values are embedded as follows: machine-level details that the code
never inspects (JSON-serialized event dicts, header bags, opaque session
state) become `String`s; timestamps become `Int`; exceptions become a
record of the attributes the code actually reads (`type`, `message`,
`isinstance openai.error.InvalidRequestError`, `.code`); the external
collaborators (the auth helper, the Approach objects, the Azure credential)
become function parameters, since the code only calls them.
-/

/- ------------------------------------------------------------------ -/
/- Data model for `routes.py`                                          -/
/- ------------------------------------------------------------------ -/

/-- An exception as observed at the request boundary.  `typeName` embeds the
qualified class name that Python's `type(error)` renders inside the generic
error template; `isInvalidRequestError` embeds
`isinstance(error, openai.error.InvalidRequestError)`; `code` embeds the
exception's `.code` attribute (absent on most exceptions). -/
structure Exn where
  typeName : String
  message : String
  isInvalidRequestError : Bool
  code : Option String
deriving DecidableEq

/-- Body of a `JSONResponse({"error": ...})`. -/
structure ErrorBody where
  error : String
deriving DecidableEq

/-- Text of the module constant `ERROR_MESSAGE` before the `{error_type}`
placeholder (routes.py line 25). -/
def ERROR_MESSAGE_PRE : String :=
  "The app encountered an error processing your request.\nIf you are an administrator of the app, view the full error in the logs. See aka.ms/appservice-logs for more information.\nError type: "

/-- Embedding of `ERROR_MESSAGE.format(error_type=type(error))`: the
template with the placeholder replaced by the exception's type name. -/
def format_error_message (error_type : String) : String :=
  ERROR_MESSAGE_PRE ++ error_type ++ "\n"

/-- Module constant `ERROR_MESSAGE_FILTER` (routes.py line 29). -/
def ERROR_MESSAGE_FILTER : String :=
  "Your message contains content that was flagged by the OpenAI content filter."

/-- The guard `isinstance(error, openai.error.InvalidRequestError) and
error.code == "content_filter"` shared by `error_dict` and
`error_response`. -/
def is_content_filter (e : Exn) : Bool :=
  e.isInvalidRequestError && e.code == some "content_filter"

/-- Embedding of `error_dict` (routes.py lines 85-88). -/
def error_dict (e : Exn) : ErrorBody :=
  if is_content_filter e then { error := ERROR_MESSAGE_FILTER }
  else { error := format_error_message e.typeName }

/-- Embedding of `error_response` (routes.py lines 91-95): the pair
`(JSONResponse(error_dict(error)), status_code)` the handler returns, with
the status overridden to 400 in the content-filter case.  `status_code`
is the caller-supplied default (500 at every call site). -/
def error_response (e : Exn) (status_code : Nat) : ErrorBody × Nat :=
  let status := if is_content_filter e then 400 else status_code
  (error_dict e, status)

/- ------------------------------------------------------------------ -/
/- NDJSON serialization of a streamed event sequence                   -/
/- ------------------------------------------------------------------ -/

/-- JSON string escaping of one character, as `json.dumps` performs on the
error payloads that occur here (backslash, double quote, newline). -/
def jsonEscapeChar (c : Char) : String :=
  if c = '\\' then "\\\\"
  else if c = '\"' then "\\\""
  else if c = '\n' then "\\n"
  else String.singleton c

/-- JSON string escaping, character by character. -/
def jsonEscape (s : String) : String :=
  String.join (s.data.map jsonEscapeChar)

/-- Embedding of `json.dumps(error_dict(e))`: the serialized one-key error
object. -/
def json_dumps_error_body (b : ErrorBody) : String :=
  "\x7b\"error\": \"" ++ jsonEscape b.error ++ "\"\x7d"

/-- Embedding of `format_as_ndjson` (routes.py lines 123-129).  A producer
is a list of already-serialized event records (`json.dumps(event)`) followed
by an optional exception raised after those events.  Each event becomes one
line `json.dumps(event) + "\n"`; a trailing exception is caught and becomes
one final record `json.dumps(error_dict(e))` with no newline appended. -/
def format_as_ndjson : List String → Option Exn → List String
  | [], none => []
  | [], some e => [json_dumps_error_body (error_dict e)]
  | s :: rest, f => (s ++ "\n") :: format_as_ndjson rest f

/-- Embedding of the local `generate()` coroutine actually used by the
`/chat` streaming branch (routes.py lines 155-157): each event becomes one
line `json.dumps(item) + "\n"`; there is no exception handler, so a
producer failure truncates the output and propagates (second component
`true` means the stream was aborted by an uncaught exception). -/
def chat_generate : List String → Option Exn → List String × Bool
  | [], none => ([], false)
  | [], some _ => ([], true)
  | s :: rest, f =>
      ((s ++ "\n") :: (chat_generate rest f).1, (chat_generate rest f).2)

/- ------------------------------------------------------------------ -/
/- The /ask and /chat endpoints                                        -/
/- ------------------------------------------------------------------ -/

/-- Caller identity claims: a mapping from claim name to value. -/
abbrev Claims := List (String × String)

/-- The per-request `context` dict: caller-supplied overrides plus the
`auth_claims` entry written by the endpoint. -/
structure Ctx where
  overrides : List (String × String)
  auth_claims : Claims
deriving DecidableEq

/-- The parsed JSON body of a request: each field embeds
`request_json.get(...)`, with `none` for an absent key. -/
structure ReqJson where
  messages : Option (List String)
  context : Option Ctx
  session_state : Option String
  stream : Option Bool
deriving DecidableEq

/-- An inbound HTTP request: whether `await request.json()` parses, the
parsed body when it does, and the header bag (opaque). -/
structure Request where
  body_is_json : Bool
  json : ReqJson
  headers : String
deriving DecidableEq

/-- Observable calls the endpoint makes on its collaborators, in order:
one `get_auth_claims_if_enabled(request.headers)` call, and one
`approach.run(messages, ...)` call with the context (carrying the resolved
claims), the stream flag when passed (`/chat` only), and the session
state. -/
inductive Effect where
  | resolveClaims (headers : String)
  | runApproach (msgs : List String) (stream : Option Bool) (ctx : Ctx)
      (session_state : Option String)
deriving DecidableEq

/-- True exactly on `runApproach` effects. -/
def Effect.isRunApproach : Effect → Bool
  | .runApproach _ _ _ _ => true
  | _ => false

/-- Result of `ChatReadRetrieveReadApproach.run`: either a plain dict
(serialized, non-streaming) or an async generator of events that may fail
mid-sequence. -/
inductive ChatResult where
  | dict (body : String)
  | stream (events : List String) (failure : Option Exn)
deriving DecidableEq

/-- The response an endpoint hands back to the framework. -/
inductive Response where
  | json (body : String)
  | errorTuple (body : ErrorBody) (status : Nat)
  | httpError (status : Nat)
  | jsonStatus (body : ErrorBody) (status : Nat)
  | streaming (lines : List String) (aborted : Bool)
deriving DecidableEq

/-- The two context-building lines shared by `/ask` and `/chat`
(routes.py lines 106-109 and 139-142): `context = request_json.get(
"context", {})` followed by `context["auth_claims"] = await
auth_helper.get_auth_claims_if_enabled(request.headers)`. -/
def build_context (resolve : String → Claims) (req : Request) : Ctx :=
  { req.json.context.getD { overrides := [], auth_claims := [] } with
      auth_claims := resolve req.headers }

/-- The exception raised by `request_json["messages"]` when the key is
absent (Python `KeyError`); it has no `.code` attribute and is not an
`InvalidRequestError`. -/
def keyErrorMessages : Exn :=
  { typeName := "KeyError", message := "messages",
    isInvalidRequestError := false, code := none }

/-- The response built by `return error_response(error, route)` with the
default status 500. -/
def respond_error (e : Exn) : Response :=
  let (body, status) := error_response e 500
  Response.errorTuple body status

/-- Embedding of the `/ask` endpoint (routes.py lines 98-120): parse JSON
(415 on failure), read `context`, resolve auth claims once into
`context["auth_claims"]`, then inside the boundary handler evaluate
`request_json["messages"]` (raising `KeyError` when absent) and call
`approach.run(messages, context=..., session_state=...)`; a success is
returned as `JSONResponse(r)`, any exception as `error_response(error,
"/ask")`.  `resolve` embeds the auth helper, `run` the ask Approach
(returning `Except.error e` when `run` raises `e`).  The second component
records the collaborator calls in order. -/
def ask (resolve : String → Claims)
    (run : List String → Ctx → Option String → Except Exn String)
    (req : Request) : Response × List Effect :=
  if req.body_is_json = false then
    (Response.httpError 415, [])
  else
    let context : Ctx := build_context resolve req
    match req.json.messages with
    | none =>
        (respond_error keyErrorMessages, [Effect.resolveClaims req.headers])
    | some msgs =>
        match run msgs context req.json.session_state with
        | Except.ok r =>
            (Response.json r,
             [Effect.resolveClaims req.headers,
              Effect.runApproach msgs none context req.json.session_state])
        | Except.error e =>
            (respond_error e,
             [Effect.resolveClaims req.headers,
              Effect.runApproach msgs none context req.json.session_state])

/-- Embedding of the `/chat` endpoint (routes.py lines 132-165): parse JSON
(`JSONResponse({"error": "request must be json"}, 415)` on failure),
resolve auth claims once into `context["auth_claims"]`, then inside the
boundary handler evaluate `request_json["messages"]` (raising `KeyError`
when absent) and call `approach.run(messages, stream=request_json.get(
"stream", False), context=..., session_state=...)`.  A dict result is
returned as `JSONResponse(result)`; a generator result is wrapped in the
local `generate()` and returned as a `StreamingResponse` — a producer
failure inside it is NOT caught by the route's handler, so the stream is
aborted.  Any exception raised before the response is returned becomes
`error_response(error, "/chat")`. -/
def chat (resolve : String → Claims)
    (run : List String → Bool → Ctx → Option String → Except Exn ChatResult)
    (req : Request) : Response × List Effect :=
  if req.body_is_json = false then
    (Response.jsonStatus { error := "request must be json" } 415, [])
  else
    let context : Ctx := build_context resolve req
    match req.json.messages with
    | none =>
        (respond_error keyErrorMessages, [Effect.resolveClaims req.headers])
    | some msgs =>
        let streamFlag := req.json.stream.getD false
        match run msgs streamFlag context req.json.session_state with
        | Except.error e =>
            (respond_error e,
             [Effect.resolveClaims req.headers,
              Effect.runApproach msgs (some streamFlag) context
                req.json.session_state])
        | Except.ok (ChatResult.dict d) =>
            (Response.json d,
             [Effect.resolveClaims req.headers,
              Effect.runApproach msgs (some streamFlag) context
                req.json.session_state])
        | Except.ok (ChatResult.stream events failure) =>
            (Response.streaming (chat_generate events failure).1
               (chat_generate events failure).2,
             [Effect.resolveClaims req.headers,
              Effect.runApproach msgs (some streamFlag) context
                req.json.session_state])

/- ------------------------------------------------------------------ -/
/- Token refresh middleware (`app.py`)                                 -/
/- ------------------------------------------------------------------ -/

/-- An Azure AD access token as returned by `credential.get_token`:
the opaque token string and its `expires_on` timestamp (seconds). -/
structure Token where
  token : String
  expires_on : Int
deriving DecidableEq

/-- The process-wide mutable state the middleware touches: the module
global `openai.api_type` (set once at startup), the stored token
`app.state[CONFIG_OPENAI_TOKEN]`, and the module global `openai.api_key`. -/
structure AppState where
  api_type : String
  stored_token : Token
  api_key : String
deriving DecidableEq

/-- Embedding of the middleware `ensure_openai_token` (app.py lines
145-155).  `getToken` embeds `await credential.get_token(scope)` for this
invocation (`Except.error` when the call raises); `now` embeds
`time.time()`.  Returns the exception propagated to this request (if any)
paired with the state after the invocation: if `openai.api_type` is not
`"azure_ad"` it returns at once; otherwise, when the stored token's
`expires_on` is within 60 seconds of now it fetches a new token, stores
it, and updates `openai.api_key` — and when the fetch raises, neither
assignment runs. -/
def ensure_openai_token (getToken : Except String Token) (now : Int)
    (s : AppState) : Option String × AppState :=
  if s.api_type ≠ "azure_ad" then (none, s)
  else if s.stored_token.expires_on < now + 60 then
    match getToken with
    | Except.error e => (some e, s)
    | Except.ok t => (none, { s with stored_token := t, api_key := t.token })
  else (none, s)

/-- A whole process lifetime of middleware invocations: each request
carries its own `get_token` outcome and its own `time.time()` reading. -/
def run_middleware : List (Except String Token × Int) → AppState → AppState
  | [], s => s
  | (g, n) :: rest, s => run_middleware rest (ensure_openai_token g n s).2

/- ------------------------------------------------------------------ -/
/- Cooperative interleaving of two concurrent middleware invocations   -/
/- ------------------------------------------------------------------ -/

/-- One concurrently running middleware invocation (in `azure_ad` mode,
with the expiry check reached).  `pc = 0`: about to run the expiry check;
`pc = 1`: passed the check and suspended at `await get_token` (a refresh is
in flight); `pc = 2`: finished. -/
structure CTask where
  pc : Nat
deriving DecidableEq

/-- Shared process state plus the program counters of two concurrent
middleware invocations. -/
structure CState where
  stored : Token
  api_key : String
  task0 : CTask
  task1 : CTask
deriving DecidableEq

/-- Atomic steps of the cooperative (asyncio) execution: a task either
runs its expiry check up to the `await` (the only suspension point in
`ensure_openai_token`), or resumes from the `await` and performs the two
assignments without suspending. -/
inductive CStep where
  | check0
  | check1
  | complete0
  | complete1
deriving DecidableEq

/-- One scheduler step.  `fresh0`/`fresh1` are the tokens the two tasks'
`get_token` calls return.  A `check` step runs the guard
`stored.expires_on < now + 60`: entering the refresh (pc 1) or returning
(pc 2).  A `complete` step resumes a task suspended at the `await`,
storing its fresh token and updating `api_key` in one scheduling slot
(no suspension point between the two assignments). -/
def cstep (now : Int) (fresh0 fresh1 : Token) (s : CState) : CStep → CState
  | CStep.check0 =>
      if s.task0.pc = 0 then
        if s.stored.expires_on < now + 60 then { s with task0 := ⟨1⟩ }
        else { s with task0 := ⟨2⟩ }
      else s
  | CStep.check1 =>
      if s.task1.pc = 0 then
        if s.stored.expires_on < now + 60 then { s with task1 := ⟨1⟩ }
        else { s with task1 := ⟨2⟩ }
      else s
  | CStep.complete0 =>
      if s.task0.pc = 1 then
        { s with stored := fresh0, api_key := fresh0.token, task0 := ⟨2⟩ }
      else s
  | CStep.complete1 =>
      if s.task1.pc = 1 then
        { s with stored := fresh1, api_key := fresh1.token, task1 := ⟨2⟩ }
      else s

/-- Run a schedule (a concrete interleaving chosen by the event loop). -/
def crun (now : Int) (fresh0 fresh1 : Token) : List CStep → CState → CState
  | [], s => s
  | st :: rest, s => crun now fresh0 fresh1 rest (cstep now fresh0 fresh1 s st)

/-- Number of refreshes currently in flight (tasks suspended at the
`await get_token` after passing the expiry check). -/
def inFlight (s : CState) : Nat :=
  (if s.task0.pc = 1 then 1 else 0) + (if s.task1.pc = 1 then 1 else 0)

/- ------------------------------------------------------------------ -/
/- Helper lemmas                                                       -/
/- ------------------------------------------------------------------ -/

/-- Whether a wire record is a complete newline-terminated line. -/
def newline_terminated (s : String) : Bool :=
  s.data.getLast? == some '\n'

theorem newline_terminated_append (s : String) :
    newline_terminated (s ++ "\n") = true := by
  unfold newline_terminated
  have hd : (s ++ "\n").data = s.data ++ ['\n'] := rfl
  rw [hd, List.getLast?_concat]
  rfl

theorem json_dumps_error_body_not_newline (b : ErrorBody) :
    newline_terminated (json_dumps_error_body b) = false := by
  unfold newline_terminated json_dumps_error_body
  have hd : ("\x7b\"error\": \"" ++ jsonEscape b.error ++ "\"\x7d").data
      = (("\x7b\"error\": \"".data ++ (jsonEscape b.error).data ++ ['\"'])
          ++ [Char.ofNat 125]) := by
    show ("\x7b\"error\": \"".data ++ (jsonEscape b.error).data
        ++ "\"\x7d".data) = _
    simp
  rw [hd, List.getLast?_concat]
  rfl

theorem chat_generate_spec (events : List String) (failure : Option Exn) :
    chat_generate events failure
      = (events.map (fun s => s ++ "\n"), failure.isSome) := by
  induction events with
  | nil => cases failure <;> rfl
  | cons s rest ih => simp [chat_generate, ih]

/-- The trailing records `format_as_ndjson` appends when the producer
raises: one serialized error record (none when the producer completes). -/
def error_tail : Option Exn -> List String
  | none => []
  | some e => [json_dumps_error_body (error_dict e)]

theorem format_as_ndjson_spec (events : List String) (failure : Option Exn) :
    format_as_ndjson events failure
      = events.map (fun s => s ++ "\n") ++ error_tail failure := by
  induction events with
  | nil => cases failure <;> rfl
  | cons s rest ih => simp [format_as_ndjson, ih]

/- ------------------------------------------------------------------ -/
/- Claim theorems                                                      -/
/- ------------------------------------------------------------------ -/

/-- C2: every exception caught at the boundary of `/ask` or `/chat` is
classified by `error_response` as follows: an `openai.error.
InvalidRequestError` whose `code` is `"content_filter"` yields the fixed
content-filter notice with status 400, and every other exception yields
the generic template (instantiated only with the exception's type) with
the default status 500 — so a content-filter rejection is always
distinguishable by the client. -/
theorem C2_error_classification (e : Exn) :
    (e.isInvalidRequestError = true → e.code = some "content_filter" →
      error_response e 500 = ({ error := ERROR_MESSAGE_FILTER }, 400)) ∧
    (¬ (e.isInvalidRequestError = true ∧ e.code = some "content_filter") →
      error_response e 500
        = ({ error := format_error_message e.typeName }, 500)) := by
  constructor
  · intro h1 h2
    simp [error_response, error_dict, is_content_filter, h1, h2]
  · intro h
    have hf : is_content_filter e = false := by
      cases hb : e.isInvalidRequestError with
      | false => simp [is_content_filter, hb]
      | true =>
          have h2 : ¬ e.code = some "content_filter" := fun hc => h ⟨hb, hc⟩
          simp [is_content_filter, hb, h2]
    simp [error_response, error_dict, hf]

/-- Witness for C2 at a content-filter rejection and at a generic
retrieval failure. -/
theorem C2_error_classification_witness :
    error_response
        { typeName := "openai.error.InvalidRequestError", message := "m",
          isInvalidRequestError := true, code := some "content_filter" } 500
      = ({ error := ERROR_MESSAGE_FILTER }, 400) ∧
    error_response
        { typeName := "ResourceNotFoundError", message := "index missing",
          isInvalidRequestError := false, code := none } 500
      = ({ error := format_error_message "ResourceNotFoundError" }, 500) := by
  constructor
  · exact (C2_error_classification _).1 rfl rfl
  · exact (C2_error_classification _).2 (by simp)

/-- C5: for any two non-content-filter exceptions of the same Python type
but different message strings, `error_dict` builds the identical payload:
it depends only on the exception's type, never its message, so raw
backend error text cannot reach the client outside the distinguished
content-filter case. -/
theorem C5_payload_depends_only_on_type (e1 e2 : Exn)
    (h1 : is_content_filter e1 = false)
    (h2 : is_content_filter e2 = false)
    (ht : e1.typeName = e2.typeName)
    (_hm : e1.message ≠ e2.message) :
    error_dict e1 = error_dict e2 ∧
    error_dict e1 = { error := format_error_message e1.typeName } := by
  constructor
  · simp [error_dict, h1, h2, ht]
  · simp [error_dict, h1]

/-- Witness for C5: two search-backend failures of the same type whose
messages differ (one carrying sensitive backend text) map to the same
payload. -/
theorem C5_payload_depends_only_on_type_witness :
    error_dict
        { typeName := "ResourceNotFoundError", message := "index gone",
          isInvalidRequestError := false, code := none }
      = error_dict
        { typeName := "ResourceNotFoundError",
          message := "raw backend text with secrets",
          isInvalidRequestError := false, code := none } :=
  (C5_payload_depends_only_on_type
      { typeName := "ResourceNotFoundError", message := "index gone",
        isInvalidRequestError := false, code := none }
      { typeName := "ResourceNotFoundError",
        message := "raw backend text with secrets",
        isInvalidRequestError := false, code := none }
      (by rfl) (by rfl) rfl (by decide)).1

/-- C3: for a request processed by the token-refresh middleware while the
backend type is `azure_ad`, the stored token is replaced by the freshly
fetched one (and `openai.api_key` updated to its token string) exactly
when `expires_on - now < 60`; when the expiry is at least 60 seconds
away, the state is returned unchanged. -/
theorem C3_refresh_iff_expiring (t : Token) (now : Int) (s : AppState)
    (ha : s.api_type = "azure_ad") :
    (s.stored_token.expires_on - now < 60 →
      ensure_openai_token (Except.ok t) now s
        = (none, { s with stored_token := t, api_key := t.token })) ∧
    (60 ≤ s.stored_token.expires_on - now →
      ensure_openai_token (Except.ok t) now s = (none, s)) := by
  constructor
  · intro h
    have h2 : s.stored_token.expires_on < now + 60 := by omega
    simp [ensure_openai_token, ha, h2]
  · intro h
    have h2 : ¬ s.stored_token.expires_on < now + 60 := by omega
    simp [ensure_openai_token, ha, h2]

/-- Witness for C3: a token 30 seconds from expiry is replaced; a token
100 seconds from expiry is kept. -/
theorem C3_refresh_iff_expiring_witness :
    ensure_openai_token (Except.ok { token := "new", expires_on := 4000 })
        100 { api_type := "azure_ad",
              stored_token := { token := "old", expires_on := 130 },
              api_key := "old" }
      = (none, { api_type := "azure_ad",
                 stored_token := { token := "new", expires_on := 4000 },
                 api_key := "new" }) ∧
    ensure_openai_token (Except.ok { token := "new", expires_on := 4000 })
        100 { api_type := "azure_ad",
              stored_token := { token := "old", expires_on := 200 },
              api_key := "old" }
      = (none, { api_type := "azure_ad",
                 stored_token := { token := "old", expires_on := 200 },
                 api_key := "old" }) := by
  constructor
  · exact (C3_refresh_iff_expiring _ _ _ rfl).1 (by norm_num)
  · exact (C3_refresh_iff_expiring _ _ _ rfl).2 (by norm_num)

/-- C4: when a refresh attempt is triggered (backend `azure_ad`, token
within 60 seconds of expiry) and the credential's `get_token` raises, the
middleware surfaces that failure to this one invocation while leaving the
stored token and `openai.api_key` exactly as before — and any later
invocation behaves as if the failed attempt had never happened. -/
theorem C4_failed_refresh_preserves_state (err : String) (now : Int)
    (s : AppState) (ha : s.api_type = "azure_ad")
    (hexp : s.stored_token.expires_on - now < 60) :
    ensure_openai_token (Except.error err) now s = (some err, s) ∧
    ∀ g2 n2,
      ensure_openai_token g2 n2
          (ensure_openai_token (Except.error err) now s).2
        = ensure_openai_token g2 n2 s := by
  have h2 : s.stored_token.expires_on < now + 60 := by omega
  have hrun : ensure_openai_token (Except.error err) now s = (some err, s) := by
    simp [ensure_openai_token, ha, h2]
  refine ⟨hrun, ?_⟩
  intro g2 n2
  rw [hrun]

/-- Witness for C4: a failing identity-provider call during a due refresh
surfaces the error and mutates nothing. -/
theorem C4_failed_refresh_preserves_state_witness :
    ensure_openai_token (Except.error "identity provider down") 100
        { api_type := "azure_ad",
          stored_token := { token := "old", expires_on := 130 },
          api_key := "old" }
      = (some "identity provider down",
         { api_type := "azure_ad",
           stored_token := { token := "old", expires_on := 130 },
           api_key := "old" }) :=
  (C4_failed_refresh_preserves_state "identity provider down" 100
      { api_type := "azure_ad",
        stored_token := { token := "old", expires_on := 130 },
        api_key := "old" } rfl (by norm_num)).1

/-- C10: when the configured backend type is not `azure_ad` (the non-Azure
startup branch sets `openai.api_type = "openai"`), the middleware is a
no-op on every request: over an arbitrary process lifetime of invocations
the stored token, the api key, and the backend type set at startup are
all left unchanged. -/
theorem C10_nonazure_middleware_noop
    (reqs : List (Except String Token × Int)) (s : AppState)
    (h : s.api_type ≠ "azure_ad") :
    run_middleware reqs s = s := by
  induction reqs with
  | nil => rfl
  | cons r rest ih =>
      obtain ⟨g, n⟩ := r
      have hstep : ensure_openai_token g n s = (none, s) := by
        simp [ensure_openai_token, h]
      simp only [run_middleware, hstep]
      exact ih

/-- Witness for C10: a non-Azure state survives a lifetime of three
middleware invocations (one of them with a failing credential call)
unchanged. -/
theorem C10_nonazure_middleware_noop_witness :
    run_middleware
        [(Except.ok { token := "t1", expires_on := 5 }, 0),
         (Except.error "boom", 10),
         (Except.ok { token := "t2", expires_on := 6 }, 20)]
        { api_type := "openai",
          stored_token := { token := "startup", expires_on := 0 },
          api_key := "OPENAI_API_KEY" }
      = { api_type := "openai",
          stored_token := { token := "startup", expires_on := 0 },
          api_key := "OPENAI_API_KEY" } :=
  C10_nonazure_middleware_noop _ _ (by decide)

/-- C6: the `/ask` endpoint never reads the request's `stream` field — its
response and collaborator calls are identical whatever that field holds —
and it never returns a streaming response: every well-formed request gets
exactly one complete JSON response synchronously. -/
theorem C6_ask_ignores_stream (resolve : String → Claims)
    (run : List String → Ctx → Option String → Except Exn String)
    (req : Request) (b : Option Bool)
    (hb : req.body_is_json = true) :
    ask resolve run { req with json := { req.json with stream := b } }
      = ask resolve run req ∧
    ∀ lines ab, (ask resolve run req).1 ≠ Response.streaming lines ab := by
  constructor
  · obtain ⟨bj, ⟨msgs, ctx, ss, st⟩, hdr⟩ := req
    simp only [ask, build_context]
  · intro lines ab
    obtain ⟨bj, ⟨msgs, ctx, ss, st⟩, hdr⟩ := req
    simp only at hb
    subst hb
    cases msgs with
    | none => simp [ask, respond_error, error_response]
    | some m =>
        cases hr : run m
            (build_context resolve ⟨true, ⟨some m, ctx, ss, st⟩, hdr⟩) ss with
        | ok r => simp [ask, hr]
        | error e => simp [ask, hr, respond_error, error_response]

/-- Witness for C6: flipping `stream` from absent to `true` leaves the
`/ask` response identical, and the response is never a streaming one. -/
theorem C6_ask_ignores_stream_witness :
    (ask (fun _ => ([] : Claims)) (fun _ _ _ => Except.ok "answer")
        { body_is_json := true,
          json := { messages := some ["q"], context := none,
                    session_state := none, stream := some true },
          headers := "hdr" }
      = ask (fun _ => ([] : Claims)) (fun _ _ _ => Except.ok "answer")
        { body_is_json := true,
          json := { messages := some ["q"], context := none,
                    session_state := none, stream := none },
          headers := "hdr" }) ∧
    ∀ lines ab,
      (ask (fun _ => ([] : Claims)) (fun _ _ _ => Except.ok "answer")
          { body_is_json := true,
            json := { messages := some ["q"], context := none,
                      session_state := none, stream := none },
            headers := "hdr" }).1 ≠ Response.streaming lines ab :=
  C6_ask_ignores_stream (fun _ => []) (fun _ _ _ => Except.ok "answer")
    { body_is_json := true,
      json := { messages := some ["q"], context := none,
                session_state := none, stream := none },
      headers := "hdr" } (some true) rfl

/-- The request of the C7 counterexample: a parseable JSON body with no
`messages` key. -/
def c7req : Request :=
  { body_is_json := true,
    json := { messages := none, context := none,
              session_state := none, stream := none },
    headers := "hdr" }

/-- C7 counterexample: a payload missing `messages` is NOT surfaced as a
distinct malformed-request classification the way a non-JSON body is
(which yields 415).  The `KeyError` raised by `request_json["messages"]`
is caught by the generic boundary handler: `/ask` and `/chat` both answer
with the generic error template at status 500, byte-identical to the
payload any other internal `KeyError` would produce — though the Approach
is indeed never invoked. -/
theorem C7_counterexample :
    (ask (fun _ => []) (fun _ _ _ => Except.ok "answer") c7req).1
      = Response.errorTuple { error := format_error_message "KeyError" } 500 ∧
    (ask (fun _ => []) (fun _ _ _ => Except.ok "answer") c7req).2
      = [Effect.resolveClaims "hdr"] ∧
    (chat (fun _ => [])
        (fun _ _ _ _ => Except.ok (ChatResult.dict "answer")) c7req).1
      = Response.errorTuple { error := format_error_message "KeyError" } 500 ∧
    error_dict keyErrorMessages
      = error_dict { typeName := "KeyError",
                     message := "unrelated internal failure",
                     isInvalidRequestError := false, code := none } ∧
    (500 : Nat) ≠ 415 :=
  ⟨rfl, rfl, rfl, rfl, by decide⟩

/-- C7 amended: a request to `/ask` or `/chat` whose payload is missing
`messages` never reaches the Approach's `run` method, but it is not given
a distinct malformed-request classification: the `KeyError` falls into
the generic exception handler, producing the generic error template with
status 500 (only a non-JSON body gets the distinct 415). -/
theorem C7_missing_messages (resolve : String → Claims)
    (runA : List String → Ctx → Option String → Except Exn String)
    (runC : List String → Bool → Ctx → Option String → Except Exn ChatResult)
    (req : Request) (hb : req.body_is_json = true)
    (hm : req.json.messages = none) :
    ask resolve runA req
      = (Response.errorTuple { error := format_error_message "KeyError" } 500,
         [Effect.resolveClaims req.headers]) ∧
    chat resolve runC req
      = (Response.errorTuple { error := format_error_message "KeyError" } 500,
         [Effect.resolveClaims req.headers]) ∧
    (∀ e ∈ (ask resolve runA req).2, e.isRunApproach = false) ∧
    (∀ e ∈ (chat resolve runC req).2, e.isRunApproach = false) := by
  obtain ⟨bj, ⟨msgs, ctx, ss, st⟩, hdr⟩ := req
  simp only at hb hm
  subst hb
  subst hm
  refine ⟨rfl, rfl, ?_, ?_⟩
  · intro e he
    simp [ask, respond_error, error_response] at he
    simp [he, Effect.isRunApproach]
  · intro e he
    simp [chat, respond_error, error_response] at he
    simp [he, Effect.isRunApproach]

/-- Witness for C7 amended: the missing-`messages` request above. -/
theorem C7_missing_messages_witness :
    ask (fun _ => []) (fun _ _ _ => Except.ok "answer") c7req
      = (Response.errorTuple { error := format_error_message "KeyError" } 500,
         [Effect.resolveClaims "hdr"]) ∧
    chat (fun _ => []) (fun _ _ _ _ => Except.ok (ChatResult.dict "answer"))
        c7req
      = (Response.errorTuple { error := format_error_message "KeyError" } 500,
         [Effect.resolveClaims "hdr"]) :=
  ⟨(C7_missing_messages (fun _ => []) (fun _ _ _ => Except.ok "answer")
      (fun _ _ _ _ => Except.ok (ChatResult.dict "answer")) c7req rfl rfl).1,
   (C7_missing_messages (fun _ => []) (fun _ _ _ => Except.ok "answer")
      (fun _ _ _ _ => Except.ok (ChatResult.dict "answer")) c7req rfl rfl).2.1⟩

/-- Number of auth-claim resolutions recorded in a trace. -/
def resolveCount : List Effect → Nat
  | [] => 0
  | Effect.resolveClaims _ :: t => resolveCount t + 1
  | Effect.runApproach _ _ _ _ :: t => resolveCount t

/-- C8: on every parsed request to `/ask` or `/chat`, the caller's auth
claims are resolved from the request headers exactly once — the very
first collaborator call, hence before the Approach runs — and every
`run` invocation receives a context whose `auth_claims` entry is exactly
the resolved mapping. -/
theorem C8_claims_resolved_once (resolve : String → Claims)
    (runA : List String → Ctx → Option String → Except Exn String)
    (runC : List String → Bool → Ctx → Option String → Except Exn ChatResult)
    (req : Request) (hb : req.body_is_json = true) :
    (∃ rest, (ask resolve runA req).2
        = Effect.resolveClaims req.headers :: rest ∧ resolveCount rest = 0) ∧
    (∀ m stf c s, Effect.runApproach m stf c s ∈ (ask resolve runA req).2 →
        c.auth_claims = resolve req.headers) ∧
    (∃ rest, (chat resolve runC req).2
        = Effect.resolveClaims req.headers :: rest ∧ resolveCount rest = 0) ∧
    (∀ m stf c s, Effect.runApproach m stf c s ∈ (chat resolve runC req).2 →
        c.auth_claims = resolve req.headers) := by
  obtain ⟨bj, ⟨msgs, ctx, ss, st⟩, hdr⟩ := req
  simp only at hb
  subst hb
  refine ⟨?_, ?_, ?_, ?_⟩
  · cases msgs with
    | none => exact ⟨[], rfl, rfl⟩
    | some m =>
        cases hr : runA m
            (build_context resolve ⟨true, ⟨some m, ctx, ss, st⟩, hdr⟩) ss with
        | ok r =>
            exact ⟨[Effect.runApproach m none
                (build_context resolve ⟨true, ⟨some m, ctx, ss, st⟩, hdr⟩) ss],
              by simp [ask, hr], rfl⟩
        | error e =>
            exact ⟨[Effect.runApproach m none
                (build_context resolve ⟨true, ⟨some m, ctx, ss, st⟩, hdr⟩) ss],
              by simp [ask, hr], rfl⟩
  · intro m' stf c' s' hmem
    cases msgs with
    | none => simp [ask] at hmem
    | some m =>
        cases hr : runA m
            (build_context resolve ⟨true, ⟨some m, ctx, ss, st⟩, hdr⟩) ss with
        | ok r =>
            simp [ask, hr] at hmem
            rcases hmem with ⟨-, -, h3, -⟩
            rw [h3]
            rfl
        | error e =>
            simp [ask, hr] at hmem
            rcases hmem with ⟨-, -, h3, -⟩
            rw [h3]
            rfl
  · cases msgs with
    | none => exact ⟨[], rfl, rfl⟩
    | some m =>
        cases hr : runC m (st.getD false)
            (build_context resolve ⟨true, ⟨some m, ctx, ss, st⟩, hdr⟩) ss with
        | ok cr =>
            cases cr with
            | dict d =>
                exact ⟨[Effect.runApproach m (some (st.getD false))
                    (build_context resolve ⟨true, ⟨some m, ctx, ss, st⟩, hdr⟩)
                    ss], by simp [chat, hr], rfl⟩
            | stream events failure =>
                exact ⟨[Effect.runApproach m (some (st.getD false))
                    (build_context resolve ⟨true, ⟨some m, ctx, ss, st⟩, hdr⟩)
                    ss], by simp [chat, hr], rfl⟩
        | error e =>
            exact ⟨[Effect.runApproach m (some (st.getD false))
                (build_context resolve ⟨true, ⟨some m, ctx, ss, st⟩, hdr⟩)
                ss], by simp [chat, hr], rfl⟩
  · intro m' stf c' s' hmem
    cases msgs with
    | none => simp [chat] at hmem
    | some m =>
        cases hr : runC m (st.getD false)
            (build_context resolve ⟨true, ⟨some m, ctx, ss, st⟩, hdr⟩) ss with
        | ok cr =>
            cases cr with
            | dict d =>
                simp [chat, hr] at hmem
                rcases hmem with ⟨-, -, h3, -⟩
                rw [h3]
                rfl
            | stream events failure =>
                simp [chat, hr] at hmem
                rcases hmem with ⟨-, -, h3, -⟩
                rw [h3]
                rfl
        | error e =>
            simp [chat, hr] at hmem
            rcases hmem with ⟨-, -, h3, -⟩
            rw [h3]
            rfl

/-- The request of the C8 witness: a full well-formed chat payload with a
caller-supplied context. -/
def c8req : Request :=
  { body_is_json := true,
    json := { messages := some ["q"],
              context := some { overrides := [("top", "3")],
                                auth_claims := [("stale", "x")] },
              session_state := some "sess", stream := some true },
    headers := "hdr8" }

/-- Witness for C8 on a concrete request: one leading claim resolution, no
second one, and the Approach sees the freshly resolved claims. -/
theorem C8_claims_resolved_once_witness :
    (∃ rest, (ask (fun h => [("oid", h)]) (fun _ _ _ => Except.ok "a")
        c8req).2 = Effect.resolveClaims "hdr8" :: rest
        ∧ resolveCount rest = 0) ∧
    (∀ m stf c s, Effect.runApproach m stf c s
        ∈ (ask (fun h => [("oid", h)]) (fun _ _ _ => Except.ok "a")
            c8req).2 →
      c.auth_claims = [("oid", "hdr8")]) ∧
    (∃ rest, (chat (fun h => [("oid", h)])
        (fun _ _ _ _ => Except.ok (ChatResult.dict "d")) c8req).2
        = Effect.resolveClaims "hdr8" :: rest ∧ resolveCount rest = 0) ∧
    (∀ m stf c s, Effect.runApproach m stf c s
        ∈ (chat (fun h => [("oid", h)])
            (fun _ _ _ _ => Except.ok (ChatResult.dict "d")) c8req).2 →
      c.auth_claims = [("oid", "hdr8")]) :=
  C8_claims_resolved_once (fun h => [("oid", h)])
    (fun _ _ _ => Except.ok "a")
    (fun _ _ _ _ => Except.ok (ChatResult.dict "d")) c8req rfl

/-- The mid-stream backend failure used in the C1 counterexample. -/
def c1exn : Exn :=
  { typeName := "APIConnectionError", message := "connection reset",
    isInvalidRequestError := false, code := none }

set_option maxRecDepth 8192 in
/-- C1 counterexample: for the `/chat` streaming path fed by a producer
that emits one event and then raises, the emitted wire sequence is just
the one event line and then the exception propagates uncaught (`aborted =
true`): no serialized error record is ever emitted, so the stream IS
silently truncated.  Moreover even the unused helper `format_as_ndjson`
appends its final error record without a newline terminator. -/
theorem C1_counterexample :
    chat (fun _ => [])
        (fun _ _ _ _ =>
          Except.ok (ChatResult.stream ["evt"] (some c1exn)))
        { body_is_json := true,
          json := { messages := some ["hello"], context := none,
                    session_state := none, stream := some true },
          headers := "hdr" }
      = (Response.streaming ["evt\n"] true,
         [Effect.resolveClaims "hdr",
          Effect.runApproach ["hello"] (some true)
            { overrides := [], auth_claims := [] } none]) ∧
    (∀ l ∈ ["evt\n"], l ≠ json_dumps_error_body (error_dict c1exn)) ∧
    format_as_ndjson ["evt"] (some c1exn)
      = ["evt\n", json_dumps_error_body (error_dict c1exn)] ∧
    newline_terminated (json_dumps_error_body (error_dict c1exn)) = false := by
  refine ⟨rfl, ?_, rfl, json_dumps_error_body_not_newline _⟩
  intro l hl
  simp only [List.mem_singleton] at hl
  subst hl
  intro hcontra
  have hlen : ("evt\n").length
      = (json_dumps_error_body (error_dict c1exn)).length := by rw [hcontra]
  revert hlen
  decide

/-- C1 amended: each event the `/chat` streaming path emits is a complete
newline-terminated JSON line, in producer order; but when the producer
raises mid-sequence the stream is truncated after the already-emitted
lines and the exception propagates with no error record (`aborted`).
Only the helper `format_as_ndjson` — defined in the module but not used
by the `/chat` route — appends one final serialized error record, and
that record is not newline-terminated. -/
theorem C1_stream_error_behavior (resolve : String → Claims)
    (run : List String → Bool → Ctx → Option String → Except Exn ChatResult)
    (req : Request) (msgs events : List String) (failure : Option Exn)
    (hb : req.body_is_json = true)
    (hm : req.json.messages = some msgs)
    (hrun : ∀ m b c s,
      run m b c s = Except.ok (ChatResult.stream events failure)) :
    (chat resolve run req).1
      = Response.streaming (events.map (fun s => s ++ "\n"))
          failure.isSome ∧
    (∀ l ∈ (chat_generate events failure).1,
        newline_terminated l = true) ∧
    format_as_ndjson events failure
      = events.map (fun s => s ++ "\n") ++ error_tail failure ∧
    (∀ e, failure = some e →
      newline_terminated (json_dumps_error_body (error_dict e)) = false) := by
  refine ⟨?_, ?_, format_as_ndjson_spec events failure,
    fun e _ => json_dumps_error_body_not_newline _⟩
  · obtain ⟨bj, ⟨ms, ctx, ss, st⟩, hdr⟩ := req
    simp only at hb hm
    subst hb
    subst hm
    simp [chat, hrun, chat_generate_spec]
  · intro l hl
    rw [chat_generate_spec] at hl
    simp only [List.mem_map] at hl
    obtain ⟨s, -, hs⟩ := hl
    rw [← hs]
    exact newline_terminated_append s

/-- Witness for C1 amended: a producer with one event and a mid-stream
failure, run through the `/chat` endpoint. -/
theorem C1_stream_error_behavior_witness :
    (chat (fun _ => [])
        (fun _ _ _ _ =>
          Except.ok (ChatResult.stream ["evt"] (some c1exn)))
        { body_is_json := true,
          json := { messages := some ["hello"], context := none,
                    session_state := none, stream := some true },
          headers := "hdr" }).1
      = Response.streaming ["evt\n"] true ∧
    format_as_ndjson ["evt"] (some c1exn)
      = ["evt\n"] ++ error_tail (some c1exn) := by
  have h := C1_stream_error_behavior (fun _ => [])
    (fun _ _ _ _ => Except.ok (ChatResult.stream ["evt"] (some c1exn)))
    { body_is_json := true,
      json := { messages := some ["hello"], context := none,
                session_state := none, stream := some true },
      headers := "hdr" }
    ["hello"] ["evt"] (some c1exn) rfl rfl (fun _ _ _ _ => rfl)
  exact ⟨h.1, h.2.2.1⟩

theorem cstep_stored (now : Int) (f0 f1 : Token) (s : CState) (st : CStep) :
    (cstep now f0 f1 s st).stored = s.stored ∨
    (cstep now f0 f1 s st).stored = f0 ∨
    (cstep now f0 f1 s st).stored = f1 := by
  cases st <;> simp only [cstep] <;> split_ifs <;> simp

/-- Initial state of the C9 counterexample: both requests are about to run
the middleware's expiry check, against a shared token 30 seconds from
expiry. -/
def c9init : CState :=
  { stored := { token := "old", expires_on := 30 }, api_key := "old",
    task0 := { pc := 0 }, task1 := { pc := 0 } }

/-- C9 counterexample: `ensure_openai_token` holds no lock, so under the
cooperative scheduler two concurrent requests can both pass the expiry
check and suspend at `await get_token` — two refreshes in flight at the
same time.  Moreover the code never compares expiry timestamps, so after
a refresh completes a reader can observe a stored credential whose
`expires_on` (10) is earlier than the one held before the refresh began
(30). -/
theorem C9_counterexample :
    inFlight (crun 0 { token := "f0", expires_on := 10 }
        { token := "f1", expires_on := 3600 }
        [CStep.check0, CStep.check1] c9init) = 2 ∧
    (crun 0 { token := "f0", expires_on := 10 }
        { token := "f1", expires_on := 3600 }
        [CStep.check0, CStep.complete0] c9init).stored.expires_on = 10 ∧
    c9init.stored.expires_on = 30 ∧ (10 : Int) < 30 :=
  ⟨rfl, rfl, rfl, by decide⟩

/-- C9 amended: concurrent requests can have several credential refreshes
in flight simultaneously (no mutual exclusion), and the expiry of the
stored credential is not guaranteed monotone; what does hold is that no
reader ever observes a torn value: under every interleaving the shared
state holds either the credential present at the start or a credential
returned whole by one of the `get_token` calls, with `api_key` likewise
one of their token strings. -/
theorem C9_no_torn_credential (now : Int) (fresh0 fresh1 : Token)
    (sched : List CStep) (s : CState) :
    ((crun now fresh0 fresh1 sched s).stored = s.stored ∨
     (crun now fresh0 fresh1 sched s).stored = fresh0 ∨
     (crun now fresh0 fresh1 sched s).stored = fresh1) ∧
    ((crun now fresh0 fresh1 sched s).api_key = s.api_key ∨
     (crun now fresh0 fresh1 sched s).api_key = fresh0.token ∨
     (crun now fresh0 fresh1 sched s).api_key = fresh1.token) := by
  induction sched generalizing s with
  | nil => exact ⟨Or.inl rfl, Or.inl rfl⟩
  | cons st rest ih =>
      have hkey : (cstep now fresh0 fresh1 s st).api_key = s.api_key ∨
          (cstep now fresh0 fresh1 s st).api_key = fresh0.token ∨
          (cstep now fresh0 fresh1 s st).api_key = fresh1.token := by
        cases st <;> simp only [cstep] <;> split_ifs <;> simp
      have hrun : crun now fresh0 fresh1 (st :: rest) s
          = crun now fresh0 fresh1 rest (cstep now fresh0 fresh1 s st) := rfl
      rw [hrun]
      rcases ih (cstep now fresh0 fresh1 s st) with ⟨hs, hk⟩
      constructor
      · rcases hs with h | h | h
        · rcases cstep_stored now fresh0 fresh1 s st with h2 | h2 | h2
          · exact Or.inl (h.trans h2)
          · exact Or.inr (Or.inl (h.trans h2))
          · exact Or.inr (Or.inr (h.trans h2))
        · exact Or.inr (Or.inl h)
        · exact Or.inr (Or.inr h)
      · rcases hk with h | h | h
        · rcases hkey with h2 | h2 | h2
          · exact Or.inl (h.trans h2)
          · exact Or.inr (Or.inl (h.trans h2))
          · exact Or.inr (Or.inr (h.trans h2))
        · exact Or.inr (Or.inl h)
        · exact Or.inr (Or.inr h)
